import Mathlib

/-!
Verification of the blstrs-pvss-simulation repository: a Groth16
operation-count cost model (`simulate_groth` / `simulate_group_ops` in
src/main.rs) together with a reusable workload harness
(`GroupOpsSimulation` and its workload items in src/group_ops_simulation.rs).

Modelling conventions (shallow embedding):
* The external curve library (blstrs) is consumed as an opaque algebraic
  capability.  We model all three pairing groups G1, G2, Gt and the scalar
  field in exponent form, as the additive group `ZMod 101`: scalar
  multiplication of a group element becomes field multiplication, the group
  operation of Gt (written multiplicatively in the library) becomes `+`,
  the Gt identity becomes `0`, the bilinear Miller-loop kernel becomes the
  product of the two exponents, and the final exponentiation (raising to
  the fixed power (p^12-1)/r) becomes multiplication by a fixed nonzero
  constant.  Affine/projective conversion is a change of representation of
  the same group element, hence the identity in the model.
* The random source (`impl RngCore`) is modelled as an infinite stream of
  field elements together with a position; every sample of a scalar or a
  group element consumes one stream value.
* The schedule executed by the timed section of `simulate_group_ops` is
  recorded as a list of `GroupOp` events, one event per group-operation
  invocation, in the exact order the Rust code performs them.
-/

namespace BlstrsSim

/-- Scalar field element (blstrs `Scalar`), in the small exponent model. -/
abbrev Scalar := ZMod 101

/-- G1 group element in projective representation (blstrs `G1Projective`),
exponent model. -/
abbrev G1Projective := ZMod 101

/-- G1 group element in affine representation (blstrs `G1Affine`),
exponent model: same group element, representation change is the identity. -/
abbrev G1Affine := ZMod 101

/-- G2 group element in projective representation (blstrs `G2Projective`). -/
abbrev G2Projective := ZMod 101

/-- G2 group element in affine representation (blstrs `G2Affine`). -/
abbrev G2Affine := ZMod 101

/-- A G2 element preprocessed for the Miller loop (blstrs `G2Prepared`):
carries the same group element. -/
abbrev G2Prepared := ZMod 101

/-- Pairing target group element (blstrs `Gt`), written additively in the
exponent model: the Gt group operation is `+` and the Gt identity is `0`. -/
abbrev Gt := ZMod 101

/-- Projective-to-affine conversion (`to_affine`): a representation change
of the same group element, the identity map in the exponent model. -/
def to_affine (x : ZMod 101) : ZMod 101 := x

/-- `G2Prepared::from`: Miller-loop preprocessing of an affine G2 point,
carrying the same group element. -/
def g2_prepared (x : G2Affine) : G2Prepared := x

/-- The fixed exponent of the final exponentiation, in the exponent model a
fixed nonzero multiplier. -/
def finalExpScale : ZMod 101 := 7

/-- The combined Miller loop (`multi_miller_loop`): multiplies the Miller
values of all the pairs, which in the exponent model is the sum of the
products of the paired exponents. -/
def multi_miller_loop (pairs : List (G1Affine × G2Prepared)) : ZMod 101 :=
  (pairs.map fun p => p.1 * p.2).sum

/-- The final exponentiation (`final_exponentiation`): a homomorphism from
Miller-loop outputs to Gt, multiplication by a fixed constant in the
exponent model. -/
def final_exponentiation (x : ZMod 101) : Gt :=
  finalExpScale * x

/-- The single bilinear pairing (blstrs `pairing`): Miller loop of the one
pair followed by the final exponentiation. -/
def pairing (a : G1Affine) (b : G2Affine) : Gt :=
  final_exponentiation (a * b)

/-- The `multi_pairing` helper (identical in src/main.rs lines 8-17 and
src/group_ops_simulation.rs lines 10-19): zips the two input sequences
(Rust iterator `zip`, which stops at the shorter sequence), converts each
pair to affine/prepared form, runs one combined Miller loop over the list
and one final exponentiation. -/
def multi_pairing (lhs : List G1Projective) (rhs : List G2Projective) : Gt :=
  final_exponentiation
    (multi_miller_loop
      ((lhs.zip rhs).map fun p => (to_affine p.1, g2_prepared (to_affine p.2))))

/-- `multi_exp` (blstrs `G1Projective::multi_exp` / `G2Projective::multi_exp`),
per its contract the sum of the pairwise scalar multiplications of the
positionally matched bases and scalars. -/
def multi_exp (bases : List (ZMod 101)) (scalars : List Scalar) : ZMod 101 :=
  ((bases.zip scalars).map fun p => p.2 * p.1).sum

/-- One group-operation invocation, as performed by the timed section of
`simulate_group_ops`: a single exponentiation in G1 or G2, a single
multi-exponentiation invocation of the given batch size, a single pairing,
or a single multi-pairing invocation of the given batch size. -/
inductive GroupOp
  | expG1
  | mexpG1 (size : Nat)
  | expG2
  | mexpG2 (size : Nat)
  | pairingOp
  | multiPairingOp (size : Nat)
deriving DecidableEq

/-- Recognises a G1 single exponentiation event. -/
def GroupOp.isExpG1op : GroupOp → Bool
  | GroupOp.expG1 => true
  | _ => false

/-- Recognises a G1 multi-exponentiation event of any batch size. -/
def GroupOp.isMexpG1op : GroupOp → Bool
  | GroupOp.mexpG1 _ => true
  | _ => false

/-- Recognises a G2 single exponentiation event. -/
def GroupOp.isExpG2op : GroupOp → Bool
  | GroupOp.expG2 => true
  | _ => false

/-- Recognises a G2 multi-exponentiation event of any batch size. -/
def GroupOp.isMexpG2op : GroupOp → Bool
  | GroupOp.mexpG2 _ => true
  | _ => false

/-- Recognises a single-pairing event. -/
def GroupOp.isPairingOp : GroupOp → Bool
  | GroupOp.pairingOp => true
  | _ => false

/-- Recognises a multi-pairing event of any batch size. -/
def GroupOp.isMultiPairingOp : GroupOp → Bool
  | GroupOp.multiPairingOp _ => true
  | _ => false

/-- The schedule of group-operation invocations performed by the timed
section of `simulate_group_ops` (src/main.rs lines 63-70), in order: the
G1 exponentiations (one per sampled base/scalar pair, `num_exps_in_G1` of
them), then for each G1 multi-exp entry `(num_mexps, mexp_size)` the loop
of `num_mexps` multi-exp invocations each over the sampled batch of
`mexp_size` operands, then the G2 exponentiations, the G2 multi-exp
entries, the `num_pairings` single pairings, and finally for each
multi-pairing entry `(num, size)` the loop of `num` multi-pairing
invocations each over the sampled batch of `size` pairs. -/
def simulate_group_ops (num_exps_in_G1 : Nat) (mexps_in_G1 : List (Nat × Nat))
    (num_exps_in_G2 : Nat) (mexps_in_G2 : List (Nat × Nat))
    (num_pairings : Nat) (multi_pairings_in : List (Nat × Nat)) : List GroupOp :=
  List.replicate num_exps_in_G1 GroupOp.expG1
    ++ mexps_in_G1.flatMap (fun p => List.replicate p.1 (GroupOp.mexpG1 p.2))
    ++ List.replicate num_exps_in_G2 GroupOp.expG2
    ++ mexps_in_G2.flatMap (fun p => List.replicate p.1 (GroupOp.mexpG2 p.2))
    ++ List.replicate num_pairings GroupOp.pairingOp
    ++ multi_pairings_in.flatMap (fun p => List.replicate p.1 (GroupOp.multiPairingOp p.2))

/-- The cost model `simulate_groth(n, k, t, l)` (src/main.rs lines 74-108):
the pair of the prover schedule (the first `simulate_group_ops` call) and
the verifier schedule (the second call), with the exact count and
batch-size arguments of the source. -/
def simulate_groth (n k t l : Nat) : List GroupOp × List GroupOp :=
  (simulate_group_ops
      (n + 2*k + l + 2)
      [(2, n), (n*k + n + k + l + 1, 2)]
      (t + 1)
      []
      0
      [],
   simulate_group_ops
      (n + 2)
      [(1, 2), (2, n+1), (n, k+1), (1, l+1), (1, k*n*l + l + 1), (1, n+2), (2, k)]
      1
      [(1, t+1), (1, k)]
      0
      [(1, 3)])

/-- Counting a predicate over a replicated list. -/
theorem countP_replicate (p : α → Bool) (n : Nat) (a : α) :
    (List.replicate n a).countP p = if p a then n else 0 := by
  induction n with
  | zero => simp
  | succ m ih =>
    rw [List.replicate_succ, List.countP_cons]
    rcases h : p a with _ | _ <;> simp [ih, h]

/-- C1: for every n, k, t, l the prover schedule of the cost model is, in
order, n + 2k + l + 2 G1 exponentiations, the size-n G1 multi-exponentiation
executed 2 times, the size-2 G1 multi-exponentiation executed
n*k + n + k + l + 1 times, and t + 1 G2 exponentiations; it contains no G2
multi-exponentiations, no pairings and no multi-pairings. -/
theorem groth_prover_schedule_counts (n k t l : Nat) :
    (simulate_groth n k t l).1
        = List.replicate (n + 2*k + l + 2) GroupOp.expG1
          ++ (List.replicate 2 (GroupOp.mexpG1 n)
              ++ List.replicate (n*k + n + k + l + 1) (GroupOp.mexpG1 2))
          ++ List.replicate (t + 1) GroupOp.expG2
    ∧ ((simulate_groth n k t l).1).countP GroupOp.isExpG1op = n + 2*k + l + 2
    ∧ ((simulate_groth n k t l).1).countP GroupOp.isExpG2op = t + 1
    ∧ ((simulate_groth n k t l).1).countP GroupOp.isMexpG2op = 0
    ∧ ((simulate_groth n k t l).1).countP GroupOp.isPairingOp = 0
    ∧ ((simulate_groth n k t l).1).countP GroupOp.isMultiPairingOp = 0 := by
  constructor
  · simp [simulate_groth, simulate_group_ops]
  · simp [simulate_groth, simulate_group_ops, List.countP_append, countP_replicate,
      GroupOp.isExpG1op, GroupOp.isExpG2op, GroupOp.isMexpG2op, GroupOp.isPairingOp,
      GroupOp.isMultiPairingOp]

/-- C2: for every n, k, t, l the verifier schedule of the cost model is, in
order, n + 2 G1 exponentiations; G1 multi-exponentiation invocations of
batch size 2 once, size n+1 twice, size k+1 n times, size l+1 once, size
k*n*l + l + 1 once, size n+2 once and size k twice; one G2 exponentiation;
G2 multi-exponentiation invocations of batch size t+1 once and size k once;
no single pairings; and one multi-pairing invocation of batch size 3. -/
theorem groth_verifier_schedule_counts (n k t l : Nat) :
    (simulate_groth n k t l).2
        = List.replicate (n + 2) GroupOp.expG1
          ++ ([GroupOp.mexpG1 2]
              ++ List.replicate 2 (GroupOp.mexpG1 (n+1))
              ++ List.replicate n (GroupOp.mexpG1 (k+1))
              ++ [GroupOp.mexpG1 (l+1)]
              ++ [GroupOp.mexpG1 (k*n*l + l + 1)]
              ++ [GroupOp.mexpG1 (n+2)]
              ++ List.replicate 2 (GroupOp.mexpG1 k))
          ++ [GroupOp.expG2]
          ++ ([GroupOp.mexpG2 (t+1)] ++ [GroupOp.mexpG2 k])
          ++ [GroupOp.multiPairingOp 3]
    ∧ ((simulate_groth n k t l).2).countP GroupOp.isExpG1op = n + 2
    ∧ ((simulate_groth n k t l).2).countP GroupOp.isExpG2op = 1
    ∧ ((simulate_groth n k t l).2).countP GroupOp.isMexpG2op = 2
    ∧ ((simulate_groth n k t l).2).countP GroupOp.isPairingOp = 0
    ∧ ((simulate_groth n k t l).2).countP GroupOp.isMultiPairingOp = 1
    ∧ ((simulate_groth n k t l).2).count (GroupOp.multiPairingOp 3) = 1 := by
  refine ⟨?_, ?_⟩
  · simp [simulate_groth, simulate_group_ops]
  · simp [simulate_groth, simulate_group_ops, List.countP_append, countP_replicate,
      List.count_append, List.count_replicate, GroupOp.isExpG1op, GroupOp.isExpG2op,
      GroupOp.isMexpG2op, GroupOp.isPairingOp, GroupOp.isMultiPairingOp, List.count_cons,
      List.count_nil]

/-- The caller-provided random source (`impl RngCore`): an infinite stream
of field elements together with the position of the next value to draw. -/
structure RngState where
  stream : Nat → ZMod 101
  pos : Nat

/-- Draw one random value (one `Scalar::random` / `G1Projective::random` /
`G2Projective::random` call): returns the stream value at the current
position and advances the position. -/
def sample (r : RngState) : ZMod 101 × RngState :=
  (r.stream r.pos, ⟨r.stream, r.pos + 1⟩)

/-- Draw `n` random values in order (the Rust `(0..n).map(|_| random(rng))`
collection pattern). -/
def sampleVec (r : RngState) : Nat → List (ZMod 101) × RngState
  | 0 => ([], r)
  | Nat.succ m =>
    let x := sample r
    let rest := sampleVec x.2 m
    (x.1 :: rest.1, rest.2)

/-- Sampling `n` values yields a vector of length `n`. -/
theorem sampleVec_length (r : RngState) (n : Nat) : (sampleVec r n).1.length = n := by
  induction n generalizing r with
  | zero => rfl
  | succ m ih => simp [sampleVec, ih]

/-- Sampling `n` values advances the random source by exactly `n` draws and
leaves its stream untouched. -/
theorem sampleVec_rng (r : RngState) (n : Nat) :
    (sampleVec r n).2 = ⟨r.stream, r.pos + n⟩ := by
  induction n generalizing r with
  | zero => rfl
  | succ m ih =>
    show (sampleVec ⟨r.stream, r.pos + 1⟩ m).2 = _
    rw [ih]
    simp [Nat.add_comm, Nat.add_assoc, Nat.add_left_comm]

/-- Workload item `Exps<T>`: a vector of bases and a vector of scalars for
independent single exponentiations (src/group_ops_simulation.rs lines
41-70).  In the exponent model G1 and G2 elements have the same carrier;
which group an item lives in is recorded by the `SimItem` wrapper below. -/
structure Exps where
  bases : List (ZMod 101)
  scalars : List Scalar
deriving DecidableEq

/-- `Exps::<T>::new(rng, num)`: samples `num` random bases and then `num`
random scalars from the caller-provided random source. -/
def Exps.new (r : RngState) (num : Nat) : Exps × RngState :=
  let bs := sampleVec r num
  let ss := sampleVec bs.2 num
  (⟨bs.1, ss.1⟩, ss.2)

/-- `Exps::simulate`: one scalar multiplication per positionally matched
base/scalar pair, results collected (and forced via `black_box`). -/
def Exps.simulate (e : Exps) : List (ZMod 101) :=
  (e.bases.zip e.scalars).map fun p => p.2 * p.1

/-- Workload item `MultiExps<T>`: a repetition count and one fixed batch of
bases and scalars (src/group_ops_simulation.rs lines 74-103). -/
structure MultiExps where
  num : Nat
  bases : List (ZMod 101)
  scalars : List Scalar
deriving DecidableEq

/-- `MultiExps::<T>::new(rng, num, size)`: stores `num` and samples `size`
random bases and then `size` random scalars. -/
def MultiExps.new (r : RngState) (num size : Nat) : MultiExps × RngState :=
  let bs := sampleVec r size
  let ss := sampleVec bs.2 size
  (⟨num, bs.1, ss.1⟩, ss.2)

/-- `MultiExps::simulate`: invokes `multi_exp` over the same stored batch
`num` times, collecting the `num` results. -/
def MultiExps.simulate (m : MultiExps) : List (ZMod 101) :=
  (List.range m.num).map fun _ => multi_exp m.bases m.scalars

/-- Workload item `Pairings`: parallel vectors of affine G1 and G2
arguments for independent single pairings (src/group_ops_simulation.rs
lines 106-134). -/
structure Pairings where
  args_G1 : List G1Affine
  args_G2 : List G2Affine
deriving DecidableEq

/-- `Pairings::new(rng, num)`: samples `num` random G1 points (converted to
affine) and then `num` random G2 points (converted to affine). -/
def Pairings.new (r : RngState) (num : Nat) : Pairings × RngState :=
  let g1 := sampleVec r num
  let g2 := sampleVec g1.2 num
  (⟨g1.1.map to_affine, g2.1.map to_affine⟩, g2.2)

/-- `Pairings::simulate`: one `pairing` call per positionally matched pair. -/
def Pairings.simulate (p : Pairings) : List Gt :=
  (p.args_G1.zip p.args_G2).map fun q => pairing q.1 q.2

/-- Workload item `MultiPairings`: a repetition count and one fixed batch
of projective G1 and G2 arguments (src/group_ops_simulation.rs lines
137-163). -/
structure MultiPairings where
  num : Nat
  args_G1 : List G1Projective
  args_G2 : List G2Projective
deriving DecidableEq

/-- `MultiPairings::new(rng, num, size)`: stores `num` and samples `size`
random G1 points and then `size` random G2 points. -/
def MultiPairings.new (r : RngState) (num size : Nat) : MultiPairings × RngState :=
  let g1 := sampleVec r size
  let g2 := sampleVec g1.2 size
  (⟨num, g1.1, g2.1⟩, g2.2)

/-- `MultiPairings::simulate`: invokes `multi_pairing` over the same stored
batch `num` times, collecting the `num` results. -/
def MultiPairings.simulate (m : MultiPairings) : List Gt :=
  (List.range m.num).map fun _ => multi_pairing m.args_G1 m.args_G2

/-- Which of the two pairing source groups a generic item is
instantiated at (`T = G1Projective` or `T = G2Projective`). -/
inductive GroupKind
  | g1
  | g2
deriving DecidableEq

/-- A boxed `dyn GroupOpsSimulationItem`: one of the four workload-item
variants, with the group recorded for the two generic ones. -/
inductive SimItem
  | exps (g : GroupKind) (e : Exps)
  | multiExps (g : GroupKind) (m : MultiExps)
  | pairings (p : Pairings)
  | multiPairings (m : MultiPairings)
deriving DecidableEq

/-- Dynamic dispatch of `GroupOpsSimulationItem::simulate` to each variant and its
implementation; the results of all four variants share the model carrier. -/
def SimItem.simulate : SimItem → List (ZMod 101)
  | SimItem.exps _ e => e.simulate
  | SimItem.multiExps _ m => m.simulate
  | SimItem.pairings p => p.simulate
  | SimItem.multiPairings m => m.simulate

/-- One dynamic-dispatch call `item.simulate()` observed from a context
that owns the item and the random source: the method receives only `&self`
(no random source is in scope in its body), so the call yields the computed
results together with the item and the random source as they stand after
the call returns. -/
def SimItem.simulateCall (it : SimItem) (r : RngState) :
    List (ZMod 101) × SimItem × RngState :=
  match it with
  | SimItem.exps g e => (e.simulate, SimItem.exps g e, r)
  | SimItem.multiExps g m => (m.simulate, SimItem.multiExps g m, r)
  | SimItem.pairings p => (p.simulate, SimItem.pairings p, r)
  | SimItem.multiPairings m => (m.simulate, SimItem.multiPairings m, r)

/-- The group-operation invocations a stored item performs when simulated:
`Exps` does one exponentiation per zipped base/scalar pair, `MultiExps`
does `num` multi-exp invocations each over its stored batch, `Pairings`
does one pairing per zipped pair, and `MultiPairings` does `num`
multi-pairing invocations each over its stored batch of zipped pairs. -/
def SimItem.ops : SimItem → List GroupOp
  | SimItem.exps GroupKind.g1 e => List.replicate (e.bases.zip e.scalars).length GroupOp.expG1
  | SimItem.exps GroupKind.g2 e => List.replicate (e.bases.zip e.scalars).length GroupOp.expG2
  | SimItem.multiExps GroupKind.g1 m =>
      List.replicate m.num (GroupOp.mexpG1 (m.bases.zip m.scalars).length)
  | SimItem.multiExps GroupKind.g2 m =>
      List.replicate m.num (GroupOp.mexpG2 (m.bases.zip m.scalars).length)
  | SimItem.pairings p => List.replicate (p.args_G1.zip p.args_G2).length GroupOp.pairingOp
  | SimItem.multiPairings m =>
      List.replicate m.num (GroupOp.multiPairingOp (m.args_G1.zip m.args_G2).length)

/-- The Workload Builder `GroupOpsSimulation`: an ordered list of boxed
workload items plus exclusive access to the shared random source
(src/group_ops_simulation.rs lines 166-213). -/
structure GroupOpsSimulation where
  items : List SimItem
  rng : RngState

/-- `GroupOpsSimulation::new(rng)`: an empty item list over the given
random source. -/
def GroupOpsSimulation.new (r : RngState) : GroupOpsSimulation :=
  ⟨[], r⟩

/-- The body of `GroupOpsSimulation::simulate`: the `for item in
&self.items` loop, invoking `simulate` on each item front to back. -/
def simulateLoop : List SimItem → List (List (ZMod 101))
  | [] => []
  | it :: rest => it.simulate :: simulateLoop rest

/-- `GroupOpsSimulation::simulate`: runs the loop over the stored items. -/
def GroupOpsSimulation.simulate (s : GroupOpsSimulation) : List (List (ZMod 101)) :=
  simulateLoop s.items

/-- `GroupOpsSimulation::g1_exps(num)`: constructs a G1 `Exps` item from
the shared random source and appends it to the item list. -/
def GroupOpsSimulation.g1_exps (s : GroupOpsSimulation) (num : Nat) : GroupOpsSimulation :=
  let p := Exps.new s.rng num
  ⟨s.items ++ [SimItem.exps GroupKind.g1 p.1], p.2⟩

/-- `GroupOpsSimulation::g2_exps(num)`. -/
def GroupOpsSimulation.g2_exps (s : GroupOpsSimulation) (num : Nat) : GroupOpsSimulation :=
  let p := Exps.new s.rng num
  ⟨s.items ++ [SimItem.exps GroupKind.g2 p.1], p.2⟩

/-- `GroupOpsSimulation::g1_multi_exps(num, size)`. -/
def GroupOpsSimulation.g1_multi_exps (s : GroupOpsSimulation) (num size : Nat) :
    GroupOpsSimulation :=
  let p := MultiExps.new s.rng num size
  ⟨s.items ++ [SimItem.multiExps GroupKind.g1 p.1], p.2⟩

/-- `GroupOpsSimulation::g2_multi_exps(num, size)`. -/
def GroupOpsSimulation.g2_multi_exps (s : GroupOpsSimulation) (num size : Nat) :
    GroupOpsSimulation :=
  let p := MultiExps.new s.rng num size
  ⟨s.items ++ [SimItem.multiExps GroupKind.g2 p.1], p.2⟩

/-- `GroupOpsSimulation::pairings(num)`. -/
def GroupOpsSimulation.pairings (s : GroupOpsSimulation) (num : Nat) : GroupOpsSimulation :=
  let p := Pairings.new s.rng num
  ⟨s.items ++ [SimItem.pairings p.1], p.2⟩

/-- `GroupOpsSimulation::multi_pairings(num, size)`. -/
def GroupOpsSimulation.multi_pairings (s : GroupOpsSimulation) (num size : Nat) :
    GroupOpsSimulation :=
  let p := MultiPairings.new s.rng num size
  ⟨s.items ++ [SimItem.multiPairings p.1], p.2⟩

/-- Zipping two lists only ever matches their common prefix: it equals the
zip of each list truncated to the length of the other. -/
theorem zip_eq_zip_take (lhs rhs : List α) :
    lhs.zip rhs = (lhs.take rhs.length).zip (rhs.take lhs.length) := by
  induction lhs generalizing rhs with
  | nil => simp
  | cons a as ih =>
    cases rhs with
    | nil => simp
    | cons b bs => simp [List.zip_cons_cons, ih bs]

/-- C5: for equal-length inputs, `multi_pairing` is computed as one
combined Miller loop over the positionally zipped affine/prepared pairs
followed by a single final exponentiation, and its value is the Gt product
(written additively in the exponent model: the sum) of the individual
pairings of the positionally matched pairs. -/
theorem multi_pairing_is_product_of_pairings (lhs : List G1Projective)
    (rhs : List G2Projective) (h : lhs.length = rhs.length) :
    multi_pairing lhs rhs
        = final_exponentiation
            (multi_miller_loop
              ((lhs.zip rhs).map fun p => (to_affine p.1, g2_prepared (to_affine p.2))))
    ∧ multi_pairing lhs rhs = ((lhs.zip rhs).map fun p => pairing p.1 p.2).sum := by
  refine ⟨rfl, ?_⟩
  simp only [multi_pairing, final_exponentiation, multi_miller_loop, pairing,
    to_affine, g2_prepared, List.map_map]
  rw [← List.sum_map_mul_left]
  rfl

/-- Witness for C5 at a concrete equal-length input. -/
theorem multi_pairing_is_product_of_pairings_witness :
    multi_pairing [(2 : ZMod 101), 3] [(4 : ZMod 101), 5]
      = (([(2 : ZMod 101), 3].zip [(4 : ZMod 101), 5]).map fun p => pairing p.1 p.2).sum :=
  (multi_pairing_is_product_of_pairings [2, 3] [4, 5] rfl).2

/-- C3 counterexample: a length mismatch is not signaled.  On the unequal
pair ([1, 2], [5]) the helper returns the value computed over only the
length-1 common prefix, identical to its value on ([1], [5]); and on
([1], []) it returns the Gt identity (the empty multi-pairing), again
without any error. -/
theorem multi_pairing_mismatch_silently_truncated :
    multi_pairing [(1 : ZMod 101), 2] [(5 : ZMod 101)]
        = multi_pairing [(1 : ZMod 101)] [(5 : ZMod 101)]
    ∧ multi_pairing [(1 : ZMod 101)] [] = 0 := by
  constructor
  · decide
  · decide

/-- C3 amended: the helper performs no length check and cannot signal a
mismatch; on sequences of unequal length it silently truncates to the
common prefix (Rust iterator `zip` semantics) and returns the multi-pairing
of the positionally matched prefix, i.e. the Gt product of the pairings of
the zipped pairs. -/
theorem multi_pairing_truncation_semantics (lhs : List G1Projective)
    (rhs : List G2Projective) :
    multi_pairing lhs rhs
        = multi_pairing (lhs.take rhs.length) (rhs.take lhs.length)
    ∧ multi_pairing lhs rhs = ((lhs.zip rhs).map fun p => pairing p.1 p.2).sum := by
  constructor
  · unfold multi_pairing
    rw [zip_eq_zip_take lhs rhs]
  · simp only [multi_pairing, final_exponentiation, multi_miller_loop, pairing,
      to_affine, g2_prepared, List.map_map]
    rw [← List.sum_map_mul_left]
    rfl

/-- C4: at the boundary n = k = t = l = 0 the prover schedule has exactly 2
G1 exponentiations, 1 G2 exponentiation, the size-0 G1 multi-exponentiation
executed twice and the size-2 one executed once; the verifier schedule has
exactly 2 G1 exponentiations and one multi-pairing invocation of batch size
3; and size-0 batches execute as no-ops (each invocation returns the group
identity, and a 0-count exponentiation item returns no results), never as
errors. -/
theorem boundary_schedule_zero :
    ((simulate_groth 0 0 0 0).1).countP GroupOp.isExpG1op = 2
    ∧ ((simulate_groth 0 0 0 0).1).countP GroupOp.isExpG2op = 1
    ∧ ((simulate_groth 0 0 0 0).1).count (GroupOp.mexpG1 0) = 2
    ∧ ((simulate_groth 0 0 0 0).1).count (GroupOp.mexpG1 2) = 1
    ∧ ((simulate_groth 0 0 0 0).2).countP GroupOp.isExpG1op = 2
    ∧ ((simulate_groth 0 0 0 0).2).count (GroupOp.multiPairingOp 3) = 1
    ∧ (∀ r : RngState, ∀ num : Nat,
        ((MultiExps.new r num 0).1).simulate = List.replicate num 0)
    ∧ (∀ r : RngState, ∀ num : Nat,
        ((MultiPairings.new r num 0).1).simulate = List.replicate num 0)
    ∧ (∀ r : RngState, ((Exps.new r 0).1).simulate = []) := by
  refine ⟨by decide, by decide, by decide, by decide, by decide, by decide, ?_, ?_, ?_⟩
  · intro r num
    simp [MultiExps.new, MultiExps.simulate, sampleVec, multi_exp]
  · intro r num
    simp [MultiPairings.new, MultiPairings.simulate, sampleVec, multi_pairing,
      multi_miller_loop, final_exponentiation]
  · intro r
    simp [Exps.new, Exps.simulate, sampleVec]

/-- The simulate loop visits the items front to back, mapping each to its
results. -/
theorem simulateLoop_eq_map (L : List SimItem) :
    simulateLoop L = L.map SimItem.simulate := by
  induction L with
  | nil => rfl
  | cons it rest ih => simp [simulateLoop, ih]

/-- C6: `GroupOpsSimulation::simulate` invokes `simulate()` exactly once
per stored item (the result list has one entry per item) and in exactly
insertion order (the i-th result is the simulation of the i-th item),
sequentially with no interleaving and no reordering. -/
theorem simulate_in_insertion_order (s : GroupOpsSimulation) (i : Nat) :
    (GroupOpsSimulation.simulate s).length = s.items.length
    ∧ (GroupOpsSimulation.simulate s)[i]? = (s.items[i]?).map SimItem.simulate := by
  constructor
  · rw [GroupOpsSimulation.simulate, simulateLoop_eq_map, List.length_map]
  · rw [GroupOpsSimulation.simulate, simulateLoop_eq_map, List.getElem?_map]

/-- Group-operation footprint added by `g1_exps`. -/
theorem g1_exps_items_ops (s : GroupOpsSimulation) (num : Nat) :
    ((s.g1_exps num).items).map SimItem.ops
      = s.items.map SimItem.ops ++ [List.replicate num GroupOp.expG1] := by
  simp [GroupOpsSimulation.g1_exps, SimItem.ops, Exps.new, sampleVec_length, List.length_zip]

/-- Group-operation footprint added by `g2_exps`. -/
theorem g2_exps_items_ops (s : GroupOpsSimulation) (num : Nat) :
    ((s.g2_exps num).items).map SimItem.ops
      = s.items.map SimItem.ops ++ [List.replicate num GroupOp.expG2] := by
  simp [GroupOpsSimulation.g2_exps, SimItem.ops, Exps.new, sampleVec_length, List.length_zip]

/-- Group-operation footprint added by `pairings`. -/
theorem pairings_items_ops (s : GroupOpsSimulation) (num : Nat) :
    ((s.pairings num).items).map SimItem.ops
      = s.items.map SimItem.ops ++ [List.replicate num GroupOp.pairingOp] := by
  simp [GroupOpsSimulation.pairings, SimItem.ops, Pairings.new, sampleVec_length,
    List.length_zip, List.length_map]

/-- Group-operation footprint of a fold of `g1_multi_exps` calls. -/
theorem g1_multi_exps_fold_items_ops (L : List (Nat × Nat)) (s : GroupOpsSimulation) :
    ((L.foldl (fun acc p => acc.g1_multi_exps p.1 p.2) s).items).map SimItem.ops
      = s.items.map SimItem.ops
        ++ L.map (fun p => List.replicate p.1 (GroupOp.mexpG1 p.2)) := by
  induction L generalizing s with
  | nil => simp
  | cons q Q ih =>
    rw [List.foldl_cons, ih]
    simp [GroupOpsSimulation.g1_multi_exps, SimItem.ops, MultiExps.new, sampleVec_length,
      List.length_zip]

/-- Group-operation footprint of a fold of `g2_multi_exps` calls. -/
theorem g2_multi_exps_fold_items_ops (L : List (Nat × Nat)) (s : GroupOpsSimulation) :
    ((L.foldl (fun acc p => acc.g2_multi_exps p.1 p.2) s).items).map SimItem.ops
      = s.items.map SimItem.ops
        ++ L.map (fun p => List.replicate p.1 (GroupOp.mexpG2 p.2)) := by
  induction L generalizing s with
  | nil => simp
  | cons q Q ih =>
    rw [List.foldl_cons, ih]
    simp [GroupOpsSimulation.g2_multi_exps, SimItem.ops, MultiExps.new, sampleVec_length,
      List.length_zip]

/-- Group-operation footprint of a fold of `multi_pairings` calls. -/
theorem multi_pairings_fold_items_ops (L : List (Nat × Nat)) (s : GroupOpsSimulation) :
    ((L.foldl (fun acc p => acc.multi_pairings p.1 p.2) s).items).map SimItem.ops
      = s.items.map SimItem.ops
        ++ L.map (fun p => List.replicate p.1 (GroupOp.multiPairingOp p.2)) := by
  induction L generalizing s with
  | nil => simp
  | cons q Q ih =>
    rw [List.foldl_cons, ih]
    simp [GroupOpsSimulation.multi_pairings, SimItem.ops, MultiPairings.new, sampleVec_length,
      List.length_zip]

/-- Modelled from the spec (no caller of the builder exists under src:
the schedules of the cost model are executed only through the inline
`simulate_group_ops`): the Workload Builder equivalent of a
`simulate_group_ops` schedule, per the prescription of the spec that the cost
model go through the Workload Builder abstraction — one `g1_exps` item for
the G1 exponentiations, one `g1_multi_exps` item per G1 multi-exp entry,
then the G2 items, the pairings item and the multi-pairing items, in
schedule order. -/
def schedule_via_builder (r : RngState) (num_exps_in_G1 : Nat)
    (mexps_in_G1 : List (Nat × Nat)) (num_exps_in_G2 : Nat)
    (mexps_in_G2 : List (Nat × Nat)) (num_pairings : Nat)
    (multi_pairings_in : List (Nat × Nat)) : GroupOpsSimulation :=
  let s0 := GroupOpsSimulation.new r
  let s1 := s0.g1_exps num_exps_in_G1
  let s2 := mexps_in_G1.foldl (fun acc p => acc.g1_multi_exps p.1 p.2) s1
  let s3 := s2.g2_exps num_exps_in_G2
  let s4 := mexps_in_G2.foldl (fun acc p => acc.g2_multi_exps p.1 p.2) s3
  let s5 := s4.pairings num_pairings
  multi_pairings_in.foldl (fun acc p => acc.multi_pairings p.1 p.2) s5

/-- Closed form of the per-item group-operation footprints of a schedule
routed through the builder. -/
theorem schedule_via_builder_ops (r : RngState) (a : Nat) (m1 : List (Nat × Nat))
    (b : Nat) (m2 : List (Nat × Nat)) (c : Nat) (mp : List (Nat × Nat)) :
    ((schedule_via_builder r a m1 b m2 c mp).items).map SimItem.ops
      = [List.replicate a GroupOp.expG1]
        ++ m1.map (fun p => List.replicate p.1 (GroupOp.mexpG1 p.2))
        ++ [List.replicate b GroupOp.expG2]
        ++ m2.map (fun p => List.replicate p.1 (GroupOp.mexpG2 p.2))
        ++ [List.replicate c GroupOp.pairingOp]
        ++ mp.map (fun p => List.replicate p.1 (GroupOp.multiPairingOp p.2)) := by
  unfold schedule_via_builder
  rw [multi_pairings_fold_items_ops, pairings_items_ops, g2_multi_exps_fold_items_ops,
    g2_exps_items_ops, g1_multi_exps_fold_items_ops, g1_exps_items_ops]
  simp [GroupOpsSimulation.new, List.append_assoc]

/-- C7: the inline execution path `simulate_group_ops` performs the same
sequence of group-operation invocations (same kinds, counts and batch
sizes, in the same order) as building the equivalent `GroupOpsSimulation`
through its add methods and running its `simulate` loop: the two parallel
code paths have the same operation semantics. -/
theorem inline_and_builder_schedules_agree (r : RngState) (a : Nat)
    (m1 : List (Nat × Nat)) (b : Nat) (m2 : List (Nat × Nat)) (c : Nat)
    (mp : List (Nat × Nat)) :
    ((schedule_via_builder r a m1 b m2 c mp).items).flatMap SimItem.ops
      = simulate_group_ops a m1 b m2 c mp := by
  have h : ((schedule_via_builder r a m1 b m2 c mp).items).flatMap SimItem.ops
      = (((schedule_via_builder r a m1 b m2 c mp).items).map SimItem.ops).flatten := rfl
  rw [h, schedule_via_builder_ops]
  simp [simulate_group_ops, List.flatten_append, List.flatMap_def, List.append_assoc]

/-- C8: constructing the same schedule from two independent random sources
produces identical operation kinds, counts and batch sizes in every
workload item, in the same order; only the sampled operand values may
differ, so no count or batch size depends on any output of the random
source. -/
theorem schedule_shape_independent_of_rng (r1 r2 : RngState) (a : Nat)
    (m1 : List (Nat × Nat)) (b : Nat) (m2 : List (Nat × Nat)) (c : Nat)
    (mp : List (Nat × Nat)) :
    ((schedule_via_builder r1 a m1 b m2 c mp).items).map SimItem.ops
      = ((schedule_via_builder r2 a m1 b m2 c mp).items).map SimItem.ops := by
  rw [schedule_via_builder_ops, schedule_via_builder_ops]

/-- C9: every constructor draws all its random operands up front from the
caller-provided random source (advancing it by exactly the advertised
number of samples and leaving its stream untouched), while a `simulate()`
call draws no randomness and has no side effects: it returns the item and
the random source exactly as they were, and its results are a pure
function of the fields stored at construction (each repetition of a
multi-exp or multi-pairing item recomputes the same value from the same
stored batch). -/
theorem randomness_only_at_construction (r : RngState) (num size : Nat)
    (it : SimItem) :
    (Exps.new r num).2 = ⟨r.stream, r.pos + (num + num)⟩
    ∧ (MultiExps.new r num size).2 = ⟨r.stream, r.pos + (size + size)⟩
    ∧ (Pairings.new r num).2 = ⟨r.stream, r.pos + (num + num)⟩
    ∧ (MultiPairings.new r num size).2 = ⟨r.stream, r.pos + (size + size)⟩
    ∧ SimItem.simulateCall it r = (it.simulate, it, r)
    ∧ (∀ m : MultiExps, m.simulate = List.replicate m.num (multi_exp m.bases m.scalars))
    ∧ (∀ m : MultiPairings,
        m.simulate = List.replicate m.num (multi_pairing m.args_G1 m.args_G2)) := by
  refine ⟨?_, ?_, ?_, ?_, ?_, ?_, ?_⟩
  · simp [Exps.new, sampleVec_rng, Nat.add_assoc]
  · simp [MultiExps.new, sampleVec_rng, Nat.add_assoc]
  · simp [Pairings.new, sampleVec_rng, Nat.add_assoc]
  · simp [MultiPairings.new, sampleVec_rng, Nat.add_assoc]
  · cases it <;> rfl
  · intro m
    simp [MultiExps.simulate]
  · intro m
    simp [MultiPairings.simulate]

/-- C10: every constructor produces parallel operand vectors of equal
length (`num` for the per-pair items, `size` for the fixed-batch items), so
the zip inside each `simulate` drops no element and each `simulate`
performs exactly the advertised number of operations: an `Exps` or
`Pairings` item yields `num` results, a `MultiExps` or `MultiPairings`
item yields `num` results each computed over its full size-`size` batch. -/
theorem constructors_parallel_lengths (r : RngState) (num size : Nat) :
    ((Exps.new r num).1).bases.length = num
    ∧ ((Exps.new r num).1).scalars.length = num
    ∧ ((Exps.new r num).1).simulate.length = num
    ∧ ((MultiExps.new r num size).1).bases.length = size
    ∧ ((MultiExps.new r num size).1).scalars.length = size
    ∧ (((MultiExps.new r num size).1).bases.zip
        ((MultiExps.new r num size).1).scalars).length = size
    ∧ ((MultiExps.new r num size).1).simulate.length = num
    ∧ ((Pairings.new r num).1).args_G1.length = num
    ∧ ((Pairings.new r num).1).args_G2.length = num
    ∧ ((Pairings.new r num).1).simulate.length = num
    ∧ ((MultiPairings.new r num size).1).args_G1.length = size
    ∧ ((MultiPairings.new r num size).1).args_G2.length = size
    ∧ (((MultiPairings.new r num size).1).args_G1.zip
        ((MultiPairings.new r num size).1).args_G2).length = size
    ∧ ((MultiPairings.new r num size).1).simulate.length = num := by
  refine ⟨?_, ?_, ?_, ?_, ?_, ?_, ?_, ?_, ?_, ?_, ?_, ?_, ?_, ?_⟩ <;>
    simp [Exps.new, Exps.simulate, MultiExps.new, MultiExps.simulate, Pairings.new,
      Pairings.simulate, MultiPairings.new, MultiPairings.simulate, sampleVec_length,
      List.length_zip, List.length_map, List.length_range]

end BlstrsSim
